import Mathlib

/-!
Verification of the HVAC calculator (`src/streamlit_app.py`).

The program is a Streamlit app with two independent calculation modes:

* a heat-transfer solver for Q = m·c·ΔT (lines 76-135 of the source), and
* a psychrometric-property adapter over the `psychrolib` library
  (lines 157-192).

Python floats are modelled as exact rationals (`ℚ`): every arithmetic
operation the solver performs (`+ - * /` on parsed inputs and the two fluid
constants) is modelled exactly, and Python's `ZeroDivisionError` on float
division by zero is made explicit as an error value.  A text-input field is
abstracted to its three observable states after `str.strip()` and `float()`:
empty, non-empty but unparseable (Python raises `ValueError`), or a number.
The `except ValueError` / `except ZeroDivisionError` handlers of lines
132-135 and the `provided_values != 2` check of lines 88-91 become an
`Except` value with one constructor per user-facing error message.
-/

/-- Fluid constants as stored in the `FLUID_PROPERTIES` dict (lines 25-34):
density in kg/m³ and specific heat in J/kg·K. -/
structure Fluid where
  density : ℚ
  specific_heat : ℚ
deriving DecidableEq

/-- The `"Air"` entry of `FLUID_PROPERTIES` (lines 26-29). -/
def airFluid : Fluid := ⟨1.225, 1005⟩

/-- The `"Water"` entry of `FLUID_PROPERTIES` (lines 30-33). -/
def waterFluid : Fluid := ⟨998.2, 4182⟩

/-- Errors surfaced by a fluid lookup: a Python `dict[name]` access on
`FLUID_PROPERTIES` raises `KeyError` for a name outside the dict, which the
spec names `UnknownFluidKind`. -/
inductive FluidError where
  | unknownFluidKind
deriving DecidableEq

/-- Lookup in the two-entry `FLUID_PROPERTIES` dict (lines 25-34, used at
lines 52-53): returns the constants for `"Air"` and `"Water"`, fails for
any other name. -/
def fluidLookup (name : String) : Except FluidError Fluid :=
  if name = "Air" then .ok airFluid
  else if name = "Water" then .ok waterFluid
  else .error .unknownFluidKind

/-- The observable state of one text-input field after `.strip()`:
empty, non-empty but not parseable by Python `float()`, or a number. -/
inductive InputField where
  | empty
  | malformed
  | num (x : ℚ)
deriving DecidableEq

/-- The three user-facing error outcomes of the heat-transfer calculation:
`invalidNumericValue` is the `except ValueError` branch (lines 132-133),
`invalidInputCount` the `provided_values != 2` message (lines 90-91), and
`divisionByZero` the `except ZeroDivisionError` branch (lines 134-135). -/
inductive HError where
  | invalidNumericValue
  | invalidInputCount
  | divisionByZero
deriving DecidableEq

/-- Line 79-81: `float(s) if s.strip() else None`, with `ValueError` on a
non-empty unparseable string. -/
def pyFloat : InputField → Except HError (Option ℚ)
  | .empty => .ok none
  | .malformed => .error .invalidNumericValue
  | .num x => .ok (some x)

/-- The complete set of values displayed after a successful solve
(lines 119-130): Q in W, V in L/s, m in kg/s, ΔT in K, plus the fluid
constants. -/
@[ext]
structure HTResult where
  Q : ℚ
  V : ℚ
  m : ℚ
  deltaT : ℚ
  density : ℚ
  specific_heat : ℚ
deriving DecidableEq

/-- Lines 88-117 of the source, after parsing: the `provided_values != 2`
check, the three solve branches of the `if q is None / elif v is None /
elif delta_t is None` chain, and the unconditional recomputation
`m = v * density / 1000` of lines 116-117.  Each Python float division
whose denominator can be zero is guarded: Python raises
`ZeroDivisionError` there, caught at lines 134-135.  The three solve
branches are exactly the input shapes with one `none`; every other shape
has `provided_values != 2` and yields the count error. -/
def calcCore (f : Fluid) : Option ℚ → Option ℚ → Option ℚ → Except HError HTResult
  | none, some v, some dt =>
      let m := v * f.density / 1000
      let q := m * f.specific_heat * dt
      .ok ⟨q, v, v * f.density / 1000, dt, f.density, f.specific_heat⟩
  | some q, none, some dt =>
      if f.specific_heat * dt = 0 then .error .divisionByZero
      else
        let m := q / (f.specific_heat * dt)
        if f.density = 0 then .error .divisionByZero
        else
          let v := m * 1000 / f.density
          .ok ⟨q, v, v * f.density / 1000, dt, f.density, f.specific_heat⟩
  | some q, some v, none =>
      let m := v * f.density / 1000
      if m * f.specific_heat = 0 then .error .divisionByZero
      else
        .ok ⟨q, v, v * f.density / 1000, q / (m * f.specific_heat), f.density,
          f.specific_heat⟩
  | _, _, _ => .error .invalidInputCount

/-- The whole `Calculate` button handler (lines 76-135): parse the three
fields in source order (Q first, converted kW → W by `* 1000`, then V,
then ΔT; the first `ValueError` aborts everything), then run the count
check and solve. -/
def calculate (f : Fluid) (qf vf tf : InputField) : Except HError HTResult :=
  match pyFloat qf, pyFloat vf, pyFloat tf with
  | .error e, _, _ => .error e
  | .ok _, .error e, _ => .error e
  | .ok _, .ok _, .error e => .error e
  | .ok qOpt, .ok v, .ok dt => calcCore f (qOpt.map (fun x => x * 1000)) v dt

/-- Number of provided fields, as counted at line 88: a field counts when
it is non-empty and parseable. -/
def providedCount (qf vf tf : InputField) : Nat :=
  (match qf with | .num _ => 1 | _ => 0)
  + (match vf with | .num _ => 1 | _ => 0)
  + (match tf with | .num _ => 1 | _ => 0)

/-- Python's `f"{x:.2f}"` decimal rounding used for display, e.g. at
line 103 for the kW figure. -/
def round2 (x : ℚ) : ℚ := (round (x * 100) : ℤ) / 100

/-- The six `psychrolib` operations invoked at lines 161-170, treated as
uninterpreted functions (the library is an external trusted black box; only
the call shape is verified).  Field names abbreviate the library names
`GetHumRatioFromRelHum`, `GetHumRatioFromTWetBulb`, `GetRelHumFromHumRatio`,
`GetTWetBulbFromHumRatio`, `GetTDewPointFromHumRatio`, `GetMoistAirEnthalpy`
and `GetMoistAirVolume`, in that order. -/
structure PsyLib where
  getHumRatFromRelHum : ℚ → ℚ → ℚ → ℚ
  getHumRatFromTWetBulb : ℚ → ℚ → ℚ → ℚ
  getRelHumFromHumRat : ℚ → ℚ → ℚ → ℚ
  getTWetBulbFromHumRat : ℚ → ℚ → ℚ → ℚ
  getTDewPointFromHumRat : ℚ → ℚ → ℚ → ℚ
  getMoistAirEnthalpy : ℚ → ℚ → ℚ
  getMoistAirVolume : ℚ → ℚ → ℚ → ℚ

/-- The `input_type` radio selection (line 150) together with the one number
it makes relevant: relative humidity in percent, or wet-bulb in °C. -/
inductive PsyInput where
  | relHum (rh : ℚ)
  | wetBulb (wb : ℚ)

/-- The values computed and displayed at lines 160-189: `relHum` is already
scaled by 100 (line 166) and `enthalpy` is the raw J/kg value
(line 169). -/
structure PsyResult where
  humRat : ℚ
  relHum : ℚ
  wetBulb : ℚ
  dewPoint : ℚ
  enthalpy : ℚ
  specificVolume : ℚ

/-- Lines 159-170: obtain the humidity ratio from the selected input pair,
then derive the five remaining properties, each by a single library call on
`(dry_bulb, hum_ratio[, pressure])`. -/
def psyCalc (lib : PsyLib) (dryBulb pressure : ℚ) (inp : PsyInput) : PsyResult :=
  let humRat :=
    match inp with
    | .relHum rh => lib.getHumRatFromRelHum dryBulb (rh / 100) pressure
    | .wetBulb wb => lib.getHumRatFromTWetBulb dryBulb wb pressure
  { humRat := humRat
    relHum := lib.getRelHumFromHumRat dryBulb humRat pressure * 100
    wetBulb := lib.getTWetBulbFromHumRat dryBulb humRat pressure
    dewPoint := lib.getTDewPointFromHumRat dryBulb humRat pressure
    enthalpy := lib.getMoistAirEnthalpy dryBulb humRat
    specificVolume := lib.getMoistAirVolume dryBulb humRat pressure }

/-- Line 187: the enthalpy metric displays `enthalpy/1000` (J/kg shown as
kJ/kg). -/
def enthalpyDisplay (r : PsyResult) : ℚ := r.enthalpy / 1000

/-- Shared helper: parsing happens at lines 78-81, before the count check at
line 88, so any malformed non-empty field lands in the `except ValueError`
handler no matter what the other fields hold. -/
theorem calculate_malformed (f : Fluid) (qf vf tf : InputField)
    (h : qf = .malformed ∨ vf = .malformed ∨ tf = .malformed) :
    calculate f qf vf tf = .error .invalidNumericValue := by
  cases qf <;> cases vf <;> cases tf <;> simp_all [calculate, pyFloat]

/-- C3 counterexample: with Q = "1" and V = "2" parseable and ΔT a non-empty
unparseable string, exactly two fields are provided (non-empty, parseable),
yet the solver does not proceed to solve: parsing fails first and the
result is the `InvalidNumericValue` error, refuting the claim that the
provided-field count alone decides the outcome. -/
theorem C3_counterexample :
    providedCount (.num 1) (.num 2) .malformed = 2
    ∧ calculate airFluid (.num 1) (.num 2) .malformed
        = .error .invalidNumericValue := by
  refine ⟨rfl, ?_⟩
  simp [calculate, pyFloat]

/-- C3 (amended): restricted to invocations in which every non-empty field
parses as a number, the solver fails with `InvalidInputCount` exactly when
the provided count is not two, and with exactly two provided it proceeds to
solve (it never reports the count error or the numeric-value error). -/
theorem C3_amended (f : Fluid) (qf vf tf : InputField)
    (hq : qf ≠ .malformed) (hv : vf ≠ .malformed) (ht : tf ≠ .malformed) :
    (providedCount qf vf tf ≠ 2 →
        calculate f qf vf tf = .error .invalidInputCount)
    ∧ (providedCount qf vf tf = 2 →
        calculate f qf vf tf ≠ .error .invalidInputCount
        ∧ calculate f qf vf tf ≠ .error .invalidNumericValue) := by
  cases qf <;> cases vf <;> cases tf <;>
    simp_all [calculate, pyFloat, calcCore, providedCount] <;>
    split_ifs <;> simp

/-- C3 (amended) witness: all three fields provided yields the count
error. -/
theorem C3_amended_witness :
    calculate airFluid (.num 1) (.num 2) (.num 3)
      = .error .invalidInputCount :=
  (C3_amended airFluid (.num 1) (.num 2) (.num 3) (by simp) (by simp)
    (by simp)).1 (by simp [providedCount])

/-- C4: whenever the denominator of the selected solve branch is zero —
`c·ΔT = 0` with V missing (line 106), or `m·c = (V·ρ/1000)·c = 0` with ΔT
missing (line 112) — the float division raises `ZeroDivisionError`, caught
at lines 134-135 as the user-facing `DivisionByZero` error, so no numeric
result (in particular no Infinity/NaN) is ever produced. -/
theorem C4_division_by_zero (f : Fluid) (q v dt : ℚ) :
    (f.specific_heat * dt = 0 →
        calculate f (.num q) .empty (.num dt) = .error .divisionByZero)
    ∧ (v * f.density / 1000 * f.specific_heat = 0 →
        calculate f (.num q) (.num v) .empty = .error .divisionByZero) := by
  constructor <;> intro h <;>
    · simp only [calculate, pyFloat, Option.map_some', calcCore]
      rw [if_pos h]

/-- C4 witness: Q = 0 and ΔT = 0 provided with V missing raises the
division-by-zero error (the spec's own concrete test case). -/
theorem C4_division_by_zero_witness :
    calculate airFluid (.num 0) .empty (.num 0) = .error .divisionByZero :=
  (C4_division_by_zero airFluid 0 0 0).1 (by simp)

/-- C5: the fluid lookup returns the fixed constants for `"Air"`
(density 1.225 kg/m³, specific heat 1005 J/kg·K) and `"Water"`
(density 998.2 kg/m³, specific heat 4182 J/kg·K), and fails with the
unknown-fluid error for every other name (a `KeyError` on the two-entry
`FLUID_PROPERTIES` dict, named `UnknownFluidKind` by the spec). -/
theorem C5_fluid_lookup :
    fluidLookup "Air" = .ok ⟨1.225, 1005⟩
    ∧ fluidLookup "Water" = .ok ⟨998.2, 4182⟩
    ∧ ∀ name : String, name ≠ "Air" → name ≠ "Water" →
        fluidLookup name = .error .unknownFluidKind := by
  refine ⟨by simp [fluidLookup, airFluid], by simp [fluidLookup, waterFluid],
    fun name h1 h2 => ?_⟩
  simp [fluidLookup, h1, h2]

/-- C5 witness: a name outside {Air, Water} fails the lookup. -/
theorem C5_fluid_lookup_witness :
    fluidLookup "Steam" = .error .unknownFluidKind :=
  C5_fluid_lookup.2.2 "Steam" (by simp) (by simp)

/-- C6: with the library operations uninterpreted, the adapter computes the
humidity ratio from `(dry_bulb, rh/100, pressure)` for the
relative-humidity input type and from `(dry_bulb, wet_bulb, pressure)` for
the wet-bulb input type (lines 160-163), then derives each of the five
remaining properties by exactly one library call on the computed humidity
ratio (lines 166-170), with relative humidity scaled ×100 and the displayed
enthalpy divided by 1000. -/
theorem C6_adapter_calls (lib : PsyLib) (d p rh wb : ℚ) :
    (psyCalc lib d p (.relHum rh)).humRat
      = lib.getHumRatFromRelHum d (rh / 100) p
    ∧ (psyCalc lib d p (.wetBulb wb)).humRat
      = lib.getHumRatFromTWetBulb d wb p
    ∧ ∀ inp : PsyInput,
        (psyCalc lib d p inp).relHum
          = lib.getRelHumFromHumRat d (psyCalc lib d p inp).humRat p * 100
        ∧ (psyCalc lib d p inp).wetBulb
          = lib.getTWetBulbFromHumRat d (psyCalc lib d p inp).humRat p
        ∧ (psyCalc lib d p inp).dewPoint
          = lib.getTDewPointFromHumRat d (psyCalc lib d p inp).humRat p
        ∧ (psyCalc lib d p inp).enthalpy
          = lib.getMoistAirEnthalpy d (psyCalc lib d p inp).humRat
        ∧ (psyCalc lib d p inp).specificVolume
          = lib.getMoistAirVolume d (psyCalc lib d p inp).humRat p
        ∧ enthalpyDisplay (psyCalc lib d p inp)
          = lib.getMoistAirEnthalpy d (psyCalc lib d p inp).humRat / 1000 :=
  ⟨rfl, rfl, fun _ => ⟨rfl, rfl, rfl, rfl, rfl, rfl⟩⟩

/-- C7: any invocation with a non-empty unparseable field fails with the
`InvalidNumericValue` error (the `except ValueError` handler of lines
132-133); no solve result is produced and no exception escapes. -/
theorem C7_malformed_input (f : Fluid) (qf vf tf : InputField)
    (h : qf = .malformed ∨ vf = .malformed ∨ tf = .malformed) :
    calculate f qf vf tf = .error .invalidNumericValue :=
  calculate_malformed f qf vf tf h

/-- C7 witness: a single malformed field yields the numeric-value error. -/
theorem C7_malformed_input_witness :
    calculate airFluid .malformed .empty .empty
      = .error .invalidNumericValue :=
  C7_malformed_input airFluid .malformed .empty .empty (Or.inl rfl)

/-- C9: parsing (lines 78-81) precedes the count check (line 88), so a
malformed non-empty field forces the `InvalidNumericValue` error even when
the provided count is also not two, and the `InvalidInputCount` error can
only arise when every non-empty field parsed. -/
theorem C9_parse_before_count (f : Fluid) (qf vf tf : InputField) :
    ((qf = .malformed ∨ vf = .malformed ∨ tf = .malformed) →
        calculate f qf vf tf = .error .invalidNumericValue)
    ∧ (calculate f qf vf tf = .error .invalidInputCount →
        qf ≠ .malformed ∧ vf ≠ .malformed ∧ tf ≠ .malformed) := by
  refine ⟨calculate_malformed f qf vf tf, fun h => ⟨?_, ?_, ?_⟩⟩ <;> intro hm
  · rw [calculate_malformed f qf vf tf (Or.inl hm)] at h
    exact absurd h (by simp)
  · rw [calculate_malformed f qf vf tf (Or.inr (Or.inl hm))] at h
    exact absurd h (by simp)
  · rw [calculate_malformed f qf vf tf (Or.inr (Or.inr hm))] at h
    exact absurd h (by simp)

/-- C9 witness: one field provided, one malformed, one empty — the count is
1 (not 2), yet the reported error is the numeric-value error, not the count
error. -/
theorem C9_parse_before_count_witness :
    providedCount .malformed (.num 1) .empty = 1
    ∧ calculate airFluid .malformed (.num 1) .empty
        = .error .invalidNumericValue :=
  ⟨rfl, (C9_parse_before_count airFluid .malformed (.num 1) .empty).1
    (Or.inl rfl)⟩

/-- C1: for any fluid constants and any exact solution
`Q = (V·ρ/1000)·c·ΔT` of the heat-transfer equation with the relevant
denominators nonzero, omitting any one of the three fields and supplying
the other two (Q entered in kW, i.e. `Q/1000`, since line 79 rescales it)
makes the solver return the full consistent record — in particular it
reproduces the omitted value exactly (exact rational arithmetic, hence
within any floating-point tolerance). -/
theorem C1_round_trip (f : Fluid) (q v dt : ℚ)
    (hd : f.density ≠ 0) (hc : f.specific_heat ≠ 0) (hv : v ≠ 0)
    (hdt : dt ≠ 0)
    (hq : q = v * f.density / 1000 * f.specific_heat * dt) :
    calculate f .empty (.num v) (.num dt)
      = .ok ⟨q, v, v * f.density / 1000, dt, f.density, f.specific_heat⟩
    ∧ calculate f (.num (q / 1000)) .empty (.num dt)
      = .ok ⟨q, v, v * f.density / 1000, dt, f.density, f.specific_heat⟩
    ∧ calculate f (.num (q / 1000)) (.num v) .empty
      = .ok ⟨q, v, v * f.density / 1000, dt, f.density, f.specific_heat⟩ := by
  subst hq
  refine ⟨rfl, ?_, ?_⟩
  · simp only [calculate, pyFloat, Option.map_some', calcCore]
    rw [if_neg (mul_ne_zero hc hdt), if_neg hd]
    refine congrArg Except.ok (HTResult.ext ?_ ?_ ?_ rfl rfl rfl) <;>
      field_simp <;> ring
  · simp only [calculate, pyFloat, Option.map_some', calcCore]
    have hm : v * f.density / 1000 * f.specific_heat ≠ 0 :=
      mul_ne_zero (div_ne_zero (mul_ne_zero hv hd) (by norm_num)) hc
    rw [if_neg hm]
    refine congrArg Except.ok (HTResult.ext ?_ rfl rfl ?_ rfl rfl) <;>
      field_simp <;> ring

/-- C1 witness: the spec's Air scenario (V = 500 L/s, ΔT = 10 K,
Q = 6155.625 W) round-trips through all three solve directions. -/
theorem C1_round_trip_witness :
    calculate airFluid .empty (.num 500) (.num 10)
      = .ok ⟨6155.625, 500, 500 * airFluid.density / 1000, 10,
          airFluid.density, airFluid.specific_heat⟩
    ∧ calculate airFluid (.num (6155.625 / 1000)) .empty (.num 10)
      = .ok ⟨6155.625, 500, 500 * airFluid.density / 1000, 10,
          airFluid.density, airFluid.specific_heat⟩
    ∧ calculate airFluid (.num (6155.625 / 1000)) (.num 500) .empty
      = .ok ⟨6155.625, 500, 500 * airFluid.density / 1000, 10,
          airFluid.density, airFluid.specific_heat⟩ :=
  C1_round_trip airFluid 6155.625 500 10 (by norm_num [airFluid])
    (by norm_num [airFluid]) (by norm_num) (by norm_num)
    (by norm_num [airFluid])

/-- C2: on an inputs record with exactly one field absent the solver
computes exactly the stated branch formulas — missing Q (lines 99-103):
`m = V·ρ/1000`, `Q = m·c·ΔT`; missing V (lines 104-108):
`m = Q/(c·ΔT)`, `V = m·1000/ρ`; missing ΔT (lines 109-113):
`m = V·ρ/1000`, `ΔT = Q/(m·c)`.  The branches are mutually exclusive:
each of the three disjoint input shapes selects exactly one branch of the
`if/elif` chain, and each equation below fixes the complete result of its
shape. -/
theorem C2_branch_formulas (f : Fluid) (q v dt : ℚ)
    (hcdt : f.specific_heat * dt ≠ 0) (hd : f.density ≠ 0)
    (hm : v * f.density / 1000 * f.specific_heat ≠ 0) :
    calcCore f none (some v) (some dt)
      = .ok ⟨v * f.density / 1000 * f.specific_heat * dt, v,
          v * f.density / 1000, dt, f.density, f.specific_heat⟩
    ∧ calcCore f (some q) none (some dt)
      = .ok ⟨q, q / (f.specific_heat * dt) * 1000 / f.density,
          q / (f.specific_heat * dt), dt, f.density, f.specific_heat⟩
    ∧ calcCore f (some q) (some v) none
      = .ok ⟨q, v, v * f.density / 1000,
          q / (v * f.density / 1000 * f.specific_heat), f.density,
          f.specific_heat⟩ := by
  refine ⟨rfl, ?_, ?_⟩
  · simp only [calcCore]
    rw [if_neg hcdt, if_neg hd]
    refine congrArg Except.ok (HTResult.ext rfl rfl ?_ rfl rfl rfl)
    field_simp
    ring
  · simp only [calcCore]
    rw [if_neg hm]

/-- C2 witness: concrete instance of all three branch formulas for Air
with Q = 100 W, V = 2 L/s, ΔT = 5 K. -/
theorem C2_branch_formulas_witness :
    calcCore airFluid none (some 2) (some 5)
      = .ok ⟨2 * airFluid.density / 1000 * airFluid.specific_heat * 5, 2,
          2 * airFluid.density / 1000, 5, airFluid.density,
          airFluid.specific_heat⟩
    ∧ calcCore airFluid (some 100) none (some 5)
      = .ok ⟨100, 100 / (airFluid.specific_heat * 5) * 1000 / airFluid.density,
          100 / (airFluid.specific_heat * 5), 5, airFluid.density,
          airFluid.specific_heat⟩
    ∧ calcCore airFluid (some 100) (some 2) none
      = .ok ⟨100, 2, 2 * airFluid.density / 1000,
          100 / (2 * airFluid.density / 1000 * airFluid.specific_heat),
          airFluid.density, airFluid.specific_heat⟩ :=
  C2_branch_formulas airFluid 100 2 5 (by norm_num [airFluid])
    (by norm_num [airFluid]) (by norm_num [airFluid])

/-- Shared helper: every successful `calcCore` result satisfies the
post-solve invariant — the reported m is the recomputation
`V·ρ/1000` of lines 116-117 from the final V, and Q = m·c·ΔT holds
exactly. -/
theorem calcCore_ok_inv (f : Fluid) (qo vo dto : Option ℚ) (r : HTResult)
    (h : calcCore f qo vo dto = .ok r) :
    r.density = f.density ∧ r.specific_heat = f.specific_heat
    ∧ r.m = r.V * f.density / 1000
    ∧ r.Q = r.m * f.specific_heat * r.deltaT := by
  rcases qo with _ | q <;> rcases vo with _ | v <;> rcases dto with _ | dt <;>
    simp only [calcCore] at h
  · exact absurd h (by simp)
  · exact absurd h (by simp)
  · exact absurd h (by simp)
  · injection h with h
    subst h
    exact ⟨rfl, rfl, rfl, rfl⟩
  · exact absurd h (by simp)
  · split_ifs at h with h1 h2
    injection h with h
    subst h
    obtain ⟨hc, hdt⟩ := mul_ne_zero_iff.mp h1
    refine ⟨rfl, rfl, rfl, ?_⟩
    field_simp
    ring
  · split_ifs at h with h1
    injection h with h
    subst h
    obtain ⟨hvd, hc⟩ := mul_ne_zero_iff.mp h1
    have hvd' : v * f.density ≠ 0 := by
      intro h0
      apply hvd
      rw [h0]
      norm_num
    obtain ⟨hv, hd⟩ := mul_ne_zero_iff.mp hvd'
    refine ⟨rfl, rfl, rfl, ?_⟩
    field_simp
    ring
  · exact absurd h (by simp)

/-- C10: every successful solve — through any branch — reports a fully
populated record whose mass flow equals `V·ρ/1000` recomputed from the
final V (lines 116-117) and which satisfies `Q = m·c·ΔT` exactly (hence
within any floating-point tolerance); the fluid constants are passed
through unchanged. -/
theorem C10_post_solve_invariant (f : Fluid) (qf vf tf : InputField)
    (r : HTResult) (h : calculate f qf vf tf = .ok r) :
    r.density = f.density ∧ r.specific_heat = f.specific_heat
    ∧ r.m = r.V * f.density / 1000
    ∧ r.Q = r.m * f.specific_heat * r.deltaT := by
  rcases qf with _ | _ | q <;> rcases vf with _ | _ | v <;>
    rcases tf with _ | _ | dt <;>
    simp only [calculate, pyFloat] at h <;>
    first
      | exact calcCore_ok_inv f _ _ _ _ h
      | exact absurd h (by simp)

/-- C10 witness: the invariant instantiated on the solved Air scenario. -/
theorem C10_post_solve_invariant_witness :
    (HTResult.mk 6155.625 500 0.6125 10 1.225 1005).density
        = airFluid.density
    ∧ (HTResult.mk 6155.625 500 0.6125 10 1.225 1005).specific_heat
        = airFluid.specific_heat
    ∧ (HTResult.mk 6155.625 500 0.6125 10 1.225 1005).m
        = (HTResult.mk 6155.625 500 0.6125 10 1.225 1005).V
            * airFluid.density / 1000
    ∧ (HTResult.mk 6155.625 500 0.6125 10 1.225 1005).Q
        = (HTResult.mk 6155.625 500 0.6125 10 1.225 1005).m
            * airFluid.specific_heat
            * (HTResult.mk 6155.625 500 0.6125 10 1.225 1005).deltaT :=
  C10_post_solve_invariant airFluid .empty (.num 500) (.num 10)
    (HTResult.mk 6155.625 500 0.6125 10 1.225 1005)
    (by norm_num [calculate, calcCore, pyFloat, airFluid])

/-- C8 counterexample: the Water scenario (Q = 100 kW, ΔT = 5 K, V
missing) yields exactly V = 50000000/10436181 ≈ 4.79102 L/s, which is more
than 10⁻³ away from the claimed 4.790 L/s — far outside floating-point
tolerance — so the claimed figure is wrong in its last digit.  (The exact
value rounds to 4.791.) -/
theorem C8_counterexample :
    calculate waterFluid (.num 100) .empty (.num 5)
      = .ok ⟨100000, 50000000 / 10436181, 10000 / 2091, 5, 998.2, 4182⟩
    ∧ ¬ |(50000000 : ℚ) / 10436181 - 4.790| < 1 / 1000 := by
  constructor
  · norm_num [calculate, calcCore, pyFloat, waterFluid]
  · rw [abs_sub_lt_iff]
    norm_num

/-- C8 (amended): Air with V = 500 L/s and ΔT = 10 K gives m = 0.6125 kg/s
and Q = 6155.625 W, displayed as 6.16 kW; Water with Q = 100 kW (rescaled
×1000 to 100000 W) and ΔT = 5 K gives m = 100000/(4182·5) ≈ 4.7824 kg/s
and V = 50000000/10436181 ≈ 4.791 L/s (not 4.790). -/
theorem C8_amended_scenarios :
    calculate airFluid .empty (.num 500) (.num 10)
      = .ok ⟨6155.625, 500, 0.6125, 10, 1.225, 1005⟩
    ∧ round2 (6155.625 / 1000) = 6.16
    ∧ calculate waterFluid (.num 100) .empty (.num 5)
      = .ok ⟨100000, 50000000 / 10436181, 10000 / 2091, 5, 998.2, 4182⟩
    ∧ (10000 : ℚ) / 2091 = 100000 / (4182 * 5)
    ∧ |(50000000 : ℚ) / 10436181 - 4.791| < 1 / 1000 := by
  refine ⟨?_, ?_, ?_, by norm_num, ?_⟩
  · norm_num [calculate, calcCore, pyFloat, airFluid]
  · norm_num [round2, round_eq]
  · norm_num [calculate, calcCore, pyFloat, waterFluid]
  · rw [abs_sub_lt_iff]
    constructor <;> norm_num
